import Mathlib

/-!
Verification of the vaaradhi-backend wallet ledger and payment subsystem.

The development shallowly embeds the Express route handlers of the backend:
the payment-signature verifier (`/api/payment/verify`), the Razorpay order
creation route (`/api/payment/order`), the wallet credit/debit route
(`/api/wallet/add`, whose ledger mutation the spec calls `applyTransaction`),
and the balance route (`/api/wallet/balance/:userId`). JavaScript numbers are
modelled as `Int` (all wallet quantities are integral in scope); JSON request
fields that may be absent are modelled as `Option`; the HMAC-SHA256 digest
computed by Node's `crypto.createHmac("sha256", secret)` is implemented in
full so that the verifier is executable.
-/

namespace Vaaradhi

/-! ### SHA-256, byte level

Bytes are natural numbers below 256, words are natural numbers below 2^32;
all word arithmetic is reduced modulo 2^32 explicitly. -/

/-- Reduce a natural number to a 32-bit word. -/
def w32 (n : Nat) : Nat := n % 4294967296

/-- Right rotation of a 32-bit word by `n` places. -/
def rotr (n x : Nat) : Nat := w32 ((x >>> n) ||| (x <<< (32 - n)))

/-- Choice function of the SHA-256 round. -/
def ch (x y z : Nat) : Nat := (x &&& y) ^^^ ((4294967295 - w32 x) &&& z)

/-- Majority function of the SHA-256 round. -/
def maj (x y z : Nat) : Nat := (x &&& y) ^^^ (x &&& z) ^^^ (y &&& z)

/-- Big sigma-0 word mix of the SHA-256 round. -/
def bSig0 (x : Nat) : Nat := rotr 2 x ^^^ rotr 13 x ^^^ rotr 22 x

/-- Big sigma-1 word mix of the SHA-256 round. -/
def bSig1 (x : Nat) : Nat := rotr 6 x ^^^ rotr 11 x ^^^ rotr 25 x

/-- Small sigma-0 word mix of the message schedule. -/
def sSig0 (x : Nat) : Nat := rotr 7 x ^^^ rotr 18 x ^^^ (x >>> 3)

/-- Small sigma-1 word mix of the message schedule. -/
def sSig1 (x : Nat) : Nat := rotr 17 x ^^^ rotr 19 x ^^^ (x >>> 10)

/-- The 64 SHA-256 round constants (fractional parts of cube roots of the
first 64 primes). -/
def roundK : List Nat :=
  [1116352408, 1899447441, 3049323471, 3921009573, 961987163, 1508970993,
   2453635748, 2870763221, 3624381080, 310598401, 607225278, 1426881987,
   1925078388, 2162078206, 2614888103, 3248222580, 3835390401, 4022224774,
   264347078, 604807628, 770255983, 1249150122, 1555081692, 1996064986,
   2554220882, 2821834349, 2952996808, 3210313671, 3336571891, 3584528711,
   113926993, 338241895, 666307205, 773529912, 1294757372, 1396182291,
   1695183700, 1986661051, 2177026350, 2456956037, 2730485921, 2820302411,
   3259730800, 3345764771, 3516065817, 3600352804, 4094571909, 275423344,
   430227734, 506948616, 659060556, 883997877, 958139571, 1322822218,
   1537002063, 1747873779, 1955562222, 2024104815, 2227730452, 2361852424,
   2428436474, 2756734187, 3204031479, 3329325298]

/-- Working state of the compression function: eight 32-bit words. -/
structure Digest8 where
  a : Nat
  b : Nat
  c : Nat
  d : Nat
  e : Nat
  f : Nat
  g : Nat
  h : Nat
deriving Repr, DecidableEq

/-- Initial hash value (fractional parts of square roots of the first
8 primes). -/
def initH : Digest8 :=
  ⟨1779033703, 3144134277, 1013904242, 2773480762,
   1359893119, 2600822924, 528734635, 1541459225⟩

/-- One SHA-256 compression round: `kw` is the pair of schedule word and
round constant. -/
def compressStep (st : Digest8) (kw : Nat × Nat) : Digest8 :=
  let t1 := w32 (st.h + bSig1 st.e + ch st.e st.f st.g + kw.2 + kw.1)
  let t2 := w32 (bSig0 st.a + maj st.a st.b st.c)
  ⟨w32 (t1 + t2), st.a, st.b, st.c, w32 (st.d + t1), st.e, st.f, st.g⟩

/-- Group a byte list into big-endian 32-bit words, four bytes per word. -/
def bytesToWords : List Nat → List Nat
  | b0 :: b1 :: b2 :: b3 :: rest =>
      (b0 * 16777216 + b1 * 65536 + b2 * 256 + b3) :: bytesToWords rest
  | _ => []

/-- The next message-schedule word, computed from the last 16 words of the
schedule built so far. -/
def nextWord (ws : List Nat) : Nat :=
  let t := ws.length
  w32 (sSig1 (ws.getD (t - 2) 0) + ws.getD (t - 7) 0 +
       sSig0 (ws.getD (t - 15) 0) + ws.getD (t - 16) 0)

/-- Extend a 16-word block schedule by `n` further words. -/
def extendSchedule (ws : List Nat) : Nat → List Nat
  | 0 => ws
  | n + 1 => extendSchedule (ws ++ [nextWord ws]) n

/-- Compress one 64-byte block into the running hash value. -/
def processBlock (hs : Digest8) (block : List Nat) : Digest8 :=
  let ws := extendSchedule (bytesToWords block) 48
  let st := (ws.zip roundK).foldl compressStep hs
  ⟨w32 (hs.a + st.a), w32 (hs.b + st.b), w32 (hs.c + st.c), w32 (hs.d + st.d),
   w32 (hs.e + st.e), w32 (hs.f + st.f), w32 (hs.g + st.g), w32 (hs.h + st.h)⟩

/-- Big-endian bytes of a natural number, `k` bytes wide. -/
def natToBytesBE (k n : Nat) : List Nat :=
  (List.range k).map (fun i => (n >>> (8 * (k - 1 - i))) % 256)

/-- SHA-256 padding: a 0x80 byte, zeros to 56 mod 64, then the bit length
as eight big-endian bytes. -/
def padMessage (m : List Nat) : List Nat :=
  m ++ [0x80] ++ List.replicate ((119 - m.length % 64) % 64) 0 ++
    natToBytesBE 8 (8 * m.length)

/-- Split a (padded) byte list into its 64-byte blocks; `n` counts the
blocks remaining. -/
def takeBlocks : Nat → List Nat → List (List Nat)
  | 0, _ => []
  | n + 1, l => l.take 64 :: takeBlocks n (l.drop 64)

/-- The 64-byte blocks of a padded message. -/
def toBlocks (l : List Nat) : List (List Nat) := takeBlocks (l.length / 64) l

/-- The four big-endian bytes of each word of a final hash value. -/
def digestBytes (d : Digest8) : List Nat :=
  (([d.a, d.b, d.c, d.d, d.e, d.f, d.g, d.h].map (natToBytesBE 4))).flatten

/-- SHA-256 of a byte list. -/
def sha256 (m : List Nat) : List Nat :=
  digestBytes ((toBlocks (padMessage m)).foldl processBlock initH)

/-! ### HMAC-SHA256 and hex digests, as produced by Node's
`crypto.createHmac("sha256", secret).update(msg).digest("hex")`. -/

/-- HMAC-SHA256 keyed hash of a byte-list message (block size 64). -/
def hmacSha256 (key msg : List Nat) : List Nat :=
  let k0 := if 64 < key.length then sha256 key else key
  let kp := k0 ++ List.replicate (64 - k0.length) 0
  sha256 ((kp.map (fun b => b ^^^ 0x5c)) ++
          sha256 ((kp.map (fun b => b ^^^ 0x36)) ++ msg))

/-- Lowercase hex digit for a nibble. -/
def hexChar (n : Nat) : Char := "0123456789abcdef".toList.getD n '?'

/-- Lowercase hex string of a byte list, two digits per byte. -/
def bytesToHex (bs : List Nat) : String :=
  String.mk ((bs.map (fun b => [hexChar (b / 16), hexChar (b % 16)])).flatten)

/-- UTF-8 encoding of a single character. -/
def utf8Char (c : Char) : List Nat :=
  let n := c.toNat
  if n < 0x80 then [n]
  else if n < 0x800 then
    [0xC0 ||| (n >>> 6), 0x80 ||| (n &&& 63)]
  else if n < 0x10000 then
    [0xE0 ||| (n >>> 12), 0x80 ||| ((n >>> 6) &&& 63), 0x80 ||| (n &&& 63)]
  else
    [0xF0 ||| (n >>> 18), 0x80 ||| ((n >>> 12) &&& 63),
     0x80 ||| ((n >>> 6) &&& 63), 0x80 ||| (n &&& 63)]

/-- UTF-8 bytes of a string (how Node buffers route-handler strings). -/
def strBytes (s : String) : List Nat := (s.toList.map utf8Char).flatten

/-- Hex HMAC-SHA256 digest of a string message under a string secret. -/
def hmacHex (secret msg : String) : String :=
  bytesToHex (hmacSha256 (strBytes secret) (strBytes msg))

/-- The `/api/payment/verify` handler: recompute the hex HMAC-SHA256 of
`orderID ++ "|" ++ paymentID` under the shared secret and compare it with
the signature supplied in the request; `true` is the 200 `success` response,
`false` the 400 invalid-signature response. -/
def verifyConfirmation (secret orderID paymentID signature : String) : Bool :=
  hmacHex secret (orderID ++ "|" ++ paymentID) == signature

/-! ### Wallet ledger

The aggregated wallet document written by `/api/wallet/add`: running totals
plus the transaction log. The `type` field of a transaction is called
`txType` here because `type` is reserved in Lean. -/

/-- One ledger transaction as pushed by the `/api/wallet/add` handler. -/
structure Transaction where
  points : Int
  rupees : Int
  txType : String
  note : String
deriving Repr, DecidableEq

/-- The wallet document: per-user running totals and the transaction log. -/
structure Wallet where
  userId : String
  totalPoints : Int
  totalRupees : Int
  transactions : List Transaction
deriving Repr, DecidableEq

/-- The transaction object built in both branches of the handler:
`{points, rupees, type: points >= 0 ? "credit" : "debit", note}`. -/
def newTx (points rupees : Int) (note : String) : Transaction :=
  ⟨points, rupees, if points ≥ 0 then "credit" else "debit", note⟩

/-- The ledger mutation of `/api/wallet/add` (the spec calls it
`applyTransaction`): if `findOne` returned no wallet, create one seeded with
this single transaction; otherwise add the deltas to both totals and push
the transaction. -/
def applyTransaction (found : Option Wallet) (userId : String)
    (points rupees : Int) (note : String) : Wallet :=
  match found with
  | none => ⟨userId, points, rupees, [newTx points rupees note]⟩
  | some w =>
      { w with
        totalPoints := w.totalPoints + points,
        totalRupees := w.totalRupees + rupees,
        transactions := w.transactions ++ [newTx points rupees note] }

/-- The persistent store, one optional wallet document per userId key
(`Wallet.findOne {userId}` / `wallet.save()`). -/
def Store : Type := String → Option Wallet

/-- A JSON value as relevant to the `points` field: the handler tests
`typeof points !== "number"`, so the model distinguishes numbers from the
other JSON shapes. -/
inductive JVal
  | num (n : Int)
  | str (s : String)
  | jbool (b : Bool)
  | jnull
deriving Repr, DecidableEq

/-- The body of a POST `/api/wallet/add` request; absent fields are `none`.
`rupees` and `note` carry destructuring defaults in the handler. -/
structure AddRequest where
  userId : Option String
  points : Option JVal
  rupees : Option Int
  note : Option String
deriving Repr

/-- Outcome of the `/api/wallet/add` route: the 400 missing-or-invalid-fields
response, or the 200 response carrying the post-mutation balance. -/
inductive AddResult
  | badRequest
  | ok (totalPoints totalRupees : Int)
deriving Repr, DecidableEq

/-- The POST `/api/wallet/add` handler. The guard is
`!userId || typeof points !== "number"`: a missing userId, the (JS-falsy)
empty-string userId, and a missing or non-number `points` all take the 400
branch and leave the store untouched; otherwise `rupees` defaults to 0,
`note` to the empty string, and the ledger mutation runs. -/
def walletAdd (store : Store) (req : AddRequest) : AddResult × Store :=
  match req.userId, req.points with
  | some u, some (JVal.num p) =>
      if u = "" then (AddResult.badRequest, store)
      else
        let rupees := req.rupees.getD 0
        let note := req.note.getD ""
        let wallet := applyTransaction (store u) u p rupees note
        (AddResult.ok wallet.totalPoints wallet.totalRupees,
         fun v => if v = u then some wallet else store v)
  | _, _ => (AddResult.badRequest, store)

/-- Whether the route outcome reached the ledger mutation (the 200 branch). -/
def reachedLedger : AddResult → Bool
  | AddResult.badRequest => false
  | AddResult.ok _ _ => true

/-- JavaScript `x || 0` on a number: 0 is falsy, every other number truthy. -/
def jsOr0 (x : Int) : Int := if x = 0 then 0 else x

/-- Response of GET `/api/wallet/balance/:userId`: the route answers 200 with
`success: true` both for a found wallet and for a missing one. -/
structure BalanceResp where
  success : Bool
  totalPoints : Int
  totalRupees : Int
deriving Repr, DecidableEq

/-- The GET `/api/wallet/balance/:userId` handler: a missing wallet yields the
zeroed balance, a found wallet its totals (each with a `|| 0` JS default). -/
def getBalance (store : Store) (userId : String) : BalanceResp :=
  match store userId with
  | none => ⟨true, 0, 0⟩
  | some w => ⟨true, jsOr0 w.totalPoints, jsOr0 w.totalRupees⟩

/-! ### Payment order creation -/

/-- Outcome of POST `/api/payment/order`: the 400 amount-is-required
response, or the options object handed to `razorpay.orders.create`. -/
inductive OrderResult
  | amountRequired
  | gatewayOrder (amountPaisa : Int) (currency : String)
deriving Repr, DecidableEq

/-- The POST `/api/payment/order` handler up to the gateway call: the guard
is `!amount`, so a missing amount and the (JS-falsy) amount 0 take the 400
branch, and every other amount — negative included — is converted to paisa
and submitted to the gateway. -/
def createOrder (amount : Option Int) : OrderResult :=
  match amount with
  | none => OrderResult.amountRequired
  | some a =>
      if a = 0 then OrderResult.amountRequired
      else OrderResult.gatewayOrder (a * 100) "INR"

/-! ### Interleaving model of two concurrent `/api/wallet/add` calls

The handler awaits `Wallet.findOne` and later `wallet.save()`; between the
two awaits another request for the same userId may run. A session is split
into its read event (capture the current document) and its write event
(store the document computed from the captured one), and a schedule is a
list of such events for two sessions with identical deltas. -/

/-- Events of the two sessions: each session reads once, then writes once. -/
inductive Ev
  | readA
  | writeA
  | readB
  | writeB
deriving Repr, DecidableEq

/-- State of the race: the stored document for the one userId in play, plus
each session's captured `findOne` result (none until its read ran). -/
structure RaceState where
  stored : Option Wallet
  foundA : Option (Option Wallet)
  foundB : Option (Option Wallet)
deriving Repr, DecidableEq

/-- One scheduler step: a read captures the current document; a write runs
the ledger mutation on the captured document and stores the result (a write
whose session has not yet read is a no-op, so every schedule is meaningful). -/
def raceStep (u : String) (p r : Int) (note : String) (s : RaceState) :
    Ev → RaceState
  | Ev.readA => { s with foundA := some s.stored }
  | Ev.readB => { s with foundB := some s.stored }
  | Ev.writeA =>
      match s.foundA with
      | some found => { s with stored := some (applyTransaction found u p r note) }
      | none => s
  | Ev.writeB =>
      match s.foundB with
      | some found => { s with stored := some (applyTransaction found u p r note) }
      | none => s

/-- Run a schedule of the two sessions from an initial stored document. -/
def runSchedule (u : String) (p r : Int) (note : String)
    (init : Option Wallet) (sched : List Ev) : RaceState :=
  sched.foldl (raceStep u p r note) ⟨init, none, none⟩

/-- The totalPoints of the stored document, 0 when absent. -/
def storedPoints : Option Wallet → Int
  | none => 0
  | some w => w.totalPoints

/-! ### Ledger aggregate invariant -/

/-- Sum of the `points` fields of a transaction list. -/
def sumPoints (ts : List Transaction) : Int := (ts.map Transaction.points).sum

/-- Sum of the `rupees` fields of a transaction list. -/
def sumRupees (ts : List Transaction) : Int := (ts.map Transaction.rupees).sum

/-- The aggregate invariant: both totals equal the sums over the log. -/
def ledgerInv (w : Wallet) : Prop :=
  w.totalPoints = sumPoints w.transactions ∧
  w.totalRupees = sumRupees w.transactions

/-- The invariant lifted to a possibly-absent account. -/
def ledgerInvOpt : Option Wallet → Prop
  | none => True
  | some w => ledgerInv w

/-- Fold a sequence of (points, rupees, note) ledger mutations for one
userId, starting from no account. -/
def applyAll (u : String) (reqs : List (Int × Int × String)) : Option Wallet :=
  reqs.foldl (fun s q => some (applyTransaction s u q.1 q.2.1 q.2.2)) none

/-- The totalPoints a `findOne` result contributes, 0 when absent. -/
def foundPoints : Option Wallet → Int
  | none => 0
  | some w => w.totalPoints

/-- The totalRupees a `findOne` result contributes, 0 when absent. -/
def foundRupees : Option Wallet → Int
  | none => 0
  | some w => w.totalRupees

/-! ### Validation of the hash implementation against published vectors -/

set_option maxRecDepth 400000

/-- SHA-256 of the empty message (FIPS 180 reference value). -/
theorem sha256_empty_vector :
    bytesToHex (sha256 []) =
      "e3b0c44298fc1c149afbf4c8996fb92427ae41e4649b934ca495991b7852b855" := by
  decide

/-- SHA-256 of "abc" (FIPS 180 reference value). -/
theorem sha256_abc_vector :
    bytesToHex (sha256 (strBytes "abc")) =
      "ba7816bf8f01cfea414140de5dae2223b00361a396177a9cb410ff61f20015ad" := by
  decide

/-- HMAC-SHA256 test case 2 of RFC 4231. -/
theorem hmac_rfc4231_case2 :
    hmacHex "Jefe" "what do ya want for nothing?" =
      "5bdcc146bf60754e6a042426089575c75a003f089d2739839dec58b964ec3843" := by
  decide

/-- The valid signature of the order/payment pair used by the testable
properties of the spec. -/
theorem hmac_order1_pay1 :
    hmacHex "s3cret" "order_1|pay_1" =
      "44422d618d76e6e81c5f002f4d5108385750b52eb8db4e9c7a4231ddfac02840" := by
  decide

/-- The verifier accepts exactly that signature on the concrete pair. -/
theorem verifyConfirmation_accepts_valid :
    verifyConfirmation "s3cret" "order_1" "pay_1"
      "44422d618d76e6e81c5f002f4d5108385750b52eb8db4e9c7a4231ddfac02840" = true := by
  decide

/-! ### Helper lemmas for the ledger invariant -/

/-- One ledger mutation preserves (or establishes) the aggregate invariant. -/
theorem applyTransaction_ledgerInv (s : Option Wallet) (u : String)
    (p r : Int) (n : String) (h : ledgerInvOpt s) :
    ledgerInv (applyTransaction s u p r n) := by
  cases s with
  | none =>
      simp [applyTransaction, ledgerInv, sumPoints, sumRupees, newTx]
  | some w =>
      obtain ⟨h1, h2⟩ := h
      constructor <;>
        simp [applyTransaction, sumPoints, sumRupees, newTx] at h1 h2 ⊢ <;>
        omega

/-- Folding ledger mutations from any invariant-satisfying state keeps the
invariant. -/
theorem applyAll_inv_aux (u : String) (reqs : List (Int × Int × String)) :
    ∀ s : Option Wallet, ledgerInvOpt s →
      ledgerInvOpt
        (reqs.foldl (fun s q => some (applyTransaction s u q.1 q.2.1 q.2.2)) s) := by
  induction reqs with
  | nil => intro s h; exact h
  | cons q rest ih =>
      intro s h
      exact ih _ (applyTransaction_ledgerInv s u q.1 q.2.1 q.2.2 h)

/-! ### Claim theorems -/

/-- C1: starting from no account, after every sequence of ledger mutations
(`applyTransaction` as run by POST `/api/wallet/add`) the account totals
equal the sums of the `points` and `rupees` fields over its transaction
list; since every prefix of a sequence is itself a sequence, the invariant
holds after each call. -/
theorem ledger_aggregate_invariant (u : String)
    (reqs : List (Int × Int × String)) :
    ledgerInvOpt (applyAll u reqs) :=
  applyAll_inv_aux u reqs none trivial

/-- C2: the payment verifier answers true exactly when the supplied
signature equals the hex HMAC-SHA256 of `orderID ++ "|" ++ paymentID` under
the shared secret, and in particular answers false for every signature that
differs from the recomputed digest in any way. -/
theorem verifyConfirmation_iff_exact_match
    (secret orderID paymentID signature : String) :
    (verifyConfirmation secret orderID paymentID signature = true ↔
      signature = hmacHex secret (orderID ++ "|" ++ paymentID)) ∧
    (signature ≠ hmacHex secret (orderID ++ "|" ++ paymentID) →
      verifyConfirmation secret orderID paymentID signature = false) := by
  constructor
  · simp only [verifyConfirmation, beq_iff_eq]
    exact eq_comm
  · intro h
    simp only [verifyConfirmation, beq_eq_false_iff_ne, ne_eq]
    exact fun hs => h hs.symm

/-- C2 witness: a single-hex-digit flip of the valid signature of the
concrete order/payment pair is rejected. -/
theorem verifyConfirmation_iff_exact_match_witness :
    verifyConfirmation "s3cret" "order_1" "pay_1"
      "44422d618d76e6e81c5f002f4d5108385750b52eb8db4e9c7a4231ddfac02841" = false :=
  (verifyConfirmation_iff_exact_match "s3cret" "order_1" "pay_1"
    "44422d618d76e6e81c5f002f4d5108385750b52eb8db4e9c7a4231ddfac02841").2
    (by decide)

/-- C3 counterexample: the empty string is a userID with no existing
account, yet crediting it (100 points, 50 rupees) is rejected by the
JS-falsy userId guard, so the subsequent balance read returns the zeroed
balance rather than `{totalPoints: 100, totalRupees: 50}`. -/
theorem roundtrip_fails_for_empty_userId :
    getBalance (walletAdd (fun _ => none)
      ⟨some "", some (JVal.num 100), some 50, some "test"⟩).2 "" =
      ⟨true, 0, 0⟩ ∧
    ¬ (getBalance (walletAdd (fun _ => none)
      ⟨some "", some (JVal.num 100), some 50, some "test"⟩).2 "" =
      ⟨true, 100, 50⟩) := by
  decide

/-- C3 (amended): for every nonempty userID with no existing account,
crediting 100 points and 50 rupees and then reading the balance yields
`{totalPoints: 100, totalRupees: 50}`. -/
theorem credit_then_getBalance (store : Store) (u : String)
    (hu : u ≠ "") (hnew : store u = none) :
    getBalance (walletAdd store
      ⟨some u, some (JVal.num 100), some 50, some "test"⟩).2 u =
      ⟨true, 100, 50⟩ := by
  simp [walletAdd, hu, hnew, getBalance, applyTransaction, newTx, jsOr0]

/-- C3 witness: the round trip on a fresh store and the userID "u1". -/
theorem credit_then_getBalance_witness :
    getBalance (walletAdd (fun _ => none)
      ⟨some "u1", some (JVal.num 100), some 50, some "test"⟩).2 "u1" =
      ⟨true, 100, 50⟩ :=
  credit_then_getBalance (fun _ => none) "u1" (by decide) rfl

/-- C4 counterexample: a request whose userID is present (the empty string)
and whose points field is the number 0 is nevertheless rejected with the 400
response and never reaches the ledger mutation, because the guard
`!userId` also fires on the JS-falsy empty string. -/
theorem validation_rejects_present_empty_userId :
    reachedLedger (walletAdd (fun _ => none)
      ⟨some "", some (JVal.num 0), none, none⟩).1 = false ∧
    (walletAdd (fun _ => none)
      ⟨some "", some (JVal.num 0), none, none⟩).2 "" = none ∧
    some "" ≠ (none : Option String) := by
  decide

/-- C4 (amended): a credit-or-debit request reaches the ledger mutation
exactly when its userID is present and nonempty and its points field is a
present numeric value (zero included); every rejected request leaves the
store untouched. -/
theorem walletAdd_validation (store : Store) (req : AddRequest) :
    (reachedLedger (walletAdd store req).1 = true ↔
      (∃ u, req.userId = some u ∧ u ≠ "") ∧
      (∃ p : Int, req.points = some (JVal.num p))) ∧
    (reachedLedger (walletAdd store req).1 = false →
      (walletAdd store req).2 = store) := by
  obtain ⟨uid, pts, rup, nt⟩ := req
  cases uid with
  | none => simp [walletAdd, reachedLedger]
  | some u =>
      cases pts with
      | none => simp [walletAdd, reachedLedger]
      | some v =>
          cases v with
          | num p =>
              by_cases hu : u = ""
              · subst hu; simp [walletAdd, reachedLedger]
              · simp [walletAdd, reachedLedger, hu]
          | str s => simp [walletAdd, reachedLedger]
          | jbool b => simp [walletAdd, reachedLedger]
          | jnull => simp [walletAdd, reachedLedger]

/-- C4 witness: a zero-points request with a nonempty userID reaches the
ledger mutation. -/
theorem walletAdd_validation_witness :
    reachedLedger (walletAdd (fun _ => none)
      ⟨some "u1", some (JVal.num 0), none, none⟩).1 = true :=
  ((walletAdd_validation (fun _ => none)
      ⟨some "u1", some (JVal.num 0), none, none⟩).1).mpr
    ⟨⟨"u1", rfl, by decide⟩, 0, rfl⟩

/-- C5: a request with an absent rupees field is processed exactly as if
rupees were 0, an absent note exactly as the empty string, and (given a
nonempty userID and numeric points) such a request is accepted. -/
theorem optional_fields_defaults (store : Store) :
    (∀ (u : Option String) (p : Option JVal) (n : Option String),
        walletAdd store ⟨u, p, none, n⟩ = walletAdd store ⟨u, p, some 0, n⟩) ∧
    (∀ (u : Option String) (p : Option JVal) (r : Option Int),
        walletAdd store ⟨u, p, r, none⟩ = walletAdd store ⟨u, p, r, some ""⟩) ∧
    (∀ (u : String) (p : Int) (r : Option Int) (n : Option String),
        u ≠ "" →
        reachedLedger (walletAdd store ⟨some u, some (JVal.num p), r, n⟩).1 = true) := by
  refine ⟨?_, ?_, ?_⟩
  · intro u p n
    cases u with
    | none => rfl
    | some u =>
        cases p with
        | none => rfl
        | some v => cases v <;> rfl
  · intro u p r
    cases u with
    | none => rfl
    | some u =>
        cases p with
        | none => rfl
        | some v => cases v <;> rfl
  · intro u p r n hu
    simp [walletAdd, reachedLedger, hu]

/-- C5 witness: a request with both rupees and note absent is accepted. -/
theorem optional_fields_defaults_witness :
    reachedLedger (walletAdd (fun _ => none)
      ⟨some "u3", some (JVal.num 7), none, none⟩).1 = true :=
  (optional_fields_defaults (fun _ => none)).2.2 "u3" 7 none none (by decide)

/-- C6: reading the balance of a userID with no wallet document yields the
successful zeroed balance, not an error. -/
theorem getBalance_unknown_user (store : Store) (u : String)
    (h : store u = none) :
    getBalance store u = ⟨true, 0, 0⟩ := by
  simp [getBalance, h]

/-- C6 witness: the unknown user of the testable properties of the spec. -/
theorem getBalance_unknown_user_witness :
    getBalance (fun _ => none) "nonexistent" = ⟨true, 0, 0⟩ :=
  getBalance_unknown_user (fun _ => none) "nonexistent" rfl

/-- C7 counterexample: the negative amount -5 is non-positive, yet the
order route hands it to the gateway call (as -500 paisa) instead of
failing, because the guard `!amount` only fires on an absent or zero
amount. -/
theorem createOrder_negative_reaches_gateway :
    createOrder (some (-5)) = OrderResult.gatewayOrder (-500) "INR" ∧
    (-5 : Int) < 0 := by
  decide

/-- C7 (amended): order creation fails (with the 400 response and no
gateway call) exactly when the amount is absent or zero; every other
amount, negative amounts included, is submitted to the gateway converted
to paisa with currency INR. -/
theorem createOrder_guard (a : Int) :
    createOrder none = OrderResult.amountRequired ∧
    createOrder (some 0) = OrderResult.amountRequired ∧
    (a ≠ 0 → createOrder (some a) = OrderResult.gatewayOrder (a * 100) "INR") := by
  refine ⟨rfl, by simp [createOrder], ?_⟩
  intro h
  simp [createOrder, h]

/-- C7 witness: the nonzero amount 7 is submitted as 700 paisa. -/
theorem createOrder_guard_witness :
    createOrder (some 7) = OrderResult.gatewayOrder 700 "INR" :=
  (createOrder_guard 7).2.2 (by decide)

/-- C8: the transaction appended by a ledger mutation carries type
"credit" exactly when its points delta is nonnegative and "debit"
otherwise, and that tag is unchanged by replacing the rupees delta with any
other value. -/
theorem transaction_classification (found : Option Wallet) (u : String)
    (p r : Int) (n : String) :
    (applyTransaction found u p r n).transactions.getLast? =
      some ⟨p, r, if p ≥ 0 then "credit" else "debit", n⟩ ∧
    ∀ r' : Int,
      ((applyTransaction found u p r n).transactions.getLast?).map Transaction.txType =
      ((applyTransaction found u p r' n).transactions.getLast?).map Transaction.txType := by
  constructor
  · cases found <;> simp [applyTransaction, newTx]
  · intro r'
    cases found <;> simp [applyTransaction, newTx]

/-- C9: two concurrent unit credits on an existing zero-balance account
leave totalPoints at 1 instead of 2 when both `findOne` reads run before
either `save`, because the route's read-modify-write is not serialized per
userID; the serialized schedule of the same two calls leaves 2. -/
theorem applyTransaction_lost_update :
    storedPoints (runSchedule "u1" 1 0 "" (some ⟨"u1", 0, 0, []⟩)
      [Ev.readA, Ev.readB, Ev.writeA, Ev.writeB]).stored = 1 ∧
    storedPoints (runSchedule "u1" 1 0 "" (some ⟨"u1", 0, 0, []⟩)
      [Ev.readA, Ev.writeA, Ev.readB, Ev.writeB]).stored = 2 := by
  decide

/-- C10: the ledger mutation imposes no lower bound — for every prior state
the totals move by exactly the signed deltas, the resulting totalPoints can
be driven below any bound by a suitable debit, and a valid request with an
arbitrarily negative points value is accepted by the route. -/
theorem no_minimum_balance (found : Option Wallet) (u : String)
    (p r : Int) (n : String) :
    ((applyTransaction found u p r n).totalPoints = foundPoints found + p ∧
     (applyTransaction found u p r n).totalRupees = foundRupees found + r) ∧
    (∀ B : Int, ∃ q : Int,
        (applyTransaction found u q r n).totalPoints < B) ∧
    (∀ s : Store, u ≠ "" →
        reachedLedger (walletAdd s ⟨some u, some (JVal.num p), some r, some n⟩).1 = true) := by
  refine ⟨?_, ?_, ?_⟩
  · cases found <;> simp [applyTransaction, foundPoints, foundRupees]
  · intro B
    refine ⟨B - foundPoints found - 1, ?_⟩
    cases found with
    | none => simp [applyTransaction, foundPoints]
    | some w => simp [applyTransaction, foundPoints]; omega
  · intro s hu
    simp [walletAdd, reachedLedger, hu]

/-- C10 witness: a million-point debit on a fresh account is accepted. -/
theorem no_minimum_balance_witness :
    reachedLedger (walletAdd (fun _ => none)
      ⟨some "u2", some (JVal.num (-1000000)), some 0, some ""⟩).1 = true :=
  (no_minimum_balance none "u2" (-1000000) 0 "").2.2 (fun _ => none) (by decide)

end Vaaradhi
